import Mathlib

/-!
Shallow embedding of `libcloud/common/openstack.py`: the OpenStack
authentication connection, the service catalog index, and the base
connection's lazy authentication step.
-/

set_option maxHeartbeats 1000000
set_option linter.unusedVariables false

namespace OpenStack

/-- A parsed JSON value (the result of `json.loads`).  Python `None` is
represented by `Json.null`; catalog dictionary keys are `Json` values because
the source uses values taken straight out of parsed JSON (service types,
names, regions, possibly `None`) as dictionary keys. -/
inductive Json where
  | null
  | bool (b : Bool)
  | num (n : Int)
  | str (s : String)
  | arr (elems : List Json)
  | obj (fields : List (String × Json))
deriving Repr

mutual

def Json.decEq : (a b : Json) → Decidable (a = b)
  | .null, .null => isTrue rfl
  | .null, .bool _ => isFalse (fun h => Json.noConfusion h)
  | .null, .num _ => isFalse (fun h => Json.noConfusion h)
  | .null, .str _ => isFalse (fun h => Json.noConfusion h)
  | .null, .arr _ => isFalse (fun h => Json.noConfusion h)
  | .null, .obj _ => isFalse (fun h => Json.noConfusion h)
  | .bool _, .null => isFalse (fun h => Json.noConfusion h)
  | .bool a, .bool b =>
      if h : a = b then isTrue (h ▸ rfl)
      else isFalse (fun hh => h (Json.bool.inj hh))
  | .bool _, .num _ => isFalse (fun h => Json.noConfusion h)
  | .bool _, .str _ => isFalse (fun h => Json.noConfusion h)
  | .bool _, .arr _ => isFalse (fun h => Json.noConfusion h)
  | .bool _, .obj _ => isFalse (fun h => Json.noConfusion h)
  | .num _, .null => isFalse (fun h => Json.noConfusion h)
  | .num _, .bool _ => isFalse (fun h => Json.noConfusion h)
  | .num a, .num b =>
      if h : a = b then isTrue (h ▸ rfl)
      else isFalse (fun hh => h (Json.num.inj hh))
  | .num _, .str _ => isFalse (fun h => Json.noConfusion h)
  | .num _, .arr _ => isFalse (fun h => Json.noConfusion h)
  | .num _, .obj _ => isFalse (fun h => Json.noConfusion h)
  | .str _, .null => isFalse (fun h => Json.noConfusion h)
  | .str _, .bool _ => isFalse (fun h => Json.noConfusion h)
  | .str _, .num _ => isFalse (fun h => Json.noConfusion h)
  | .str a, .str b =>
      if h : a = b then isTrue (h ▸ rfl)
      else isFalse (fun hh => h (Json.str.inj hh))
  | .str _, .arr _ => isFalse (fun h => Json.noConfusion h)
  | .str _, .obj _ => isFalse (fun h => Json.noConfusion h)
  | .arr _, .null => isFalse (fun h => Json.noConfusion h)
  | .arr _, .bool _ => isFalse (fun h => Json.noConfusion h)
  | .arr _, .num _ => isFalse (fun h => Json.noConfusion h)
  | .arr _, .str _ => isFalse (fun h => Json.noConfusion h)
  | .arr a, .arr b =>
      match Json.decEqList a b with
      | isTrue h => isTrue (h ▸ rfl)
      | isFalse h => isFalse (fun hh => h (Json.arr.inj hh))
  | .arr _, .obj _ => isFalse (fun h => Json.noConfusion h)
  | .obj _, .null => isFalse (fun h => Json.noConfusion h)
  | .obj _, .bool _ => isFalse (fun h => Json.noConfusion h)
  | .obj _, .num _ => isFalse (fun h => Json.noConfusion h)
  | .obj _, .str _ => isFalse (fun h => Json.noConfusion h)
  | .obj _, .arr _ => isFalse (fun h => Json.noConfusion h)
  | .obj a, .obj b =>
      match Json.decEqFields a b with
      | isTrue h => isTrue (h ▸ rfl)
      | isFalse h => isFalse (fun hh => h (Json.obj.inj hh))

def Json.decEqList : (a b : List Json) → Decidable (a = b)
  | [], [] => isTrue rfl
  | [], _ :: _ => isFalse (fun h => List.noConfusion h)
  | _ :: _, [] => isFalse (fun h => List.noConfusion h)
  | x :: xs, y :: ys =>
      match Json.decEq x y with
      | isFalse h => isFalse (fun hh => h (List.cons.injEq x xs y ys ▸ hh).1)
      | isTrue h1 =>
          match Json.decEqList xs ys with
          | isTrue h2 => isTrue (by rw [h1, h2])
          | isFalse h2 => isFalse (fun hh => h2 (List.cons.injEq x xs y ys ▸ hh).2)

def Json.decEqFields : (a b : List (String × Json)) → Decidable (a = b)
  | [], [] => isTrue rfl
  | [], _ :: _ => isFalse (fun h => List.noConfusion h)
  | _ :: _, [] => isFalse (fun h => List.noConfusion h)
  | (k, v) :: xs, (k', v') :: ys =>
      if hk : k = k' then
        match Json.decEq v v' with
        | isFalse h =>
            isFalse (fun hh => h (congrArg Prod.snd (List.cons.injEq _ xs _ ys ▸ hh).1))
        | isTrue h1 =>
            match Json.decEqFields xs ys with
            | isTrue h2 => isTrue (by rw [hk, h1, h2])
            | isFalse h2 => isFalse (fun hh => h2 (List.cons.injEq _ xs _ ys ▸ hh).2)
      else
        isFalse (fun hh => hk (congrArg Prod.fst (List.cons.injEq _ xs _ ys ▸ hh).1))

end

instance : DecidableEq Json := Json.decEq

/-- Python truthiness of a JSON value (`if not x` tests). -/
def Json.isTruthy : Json → Bool
  | .null => false
  | .bool b => b
  | .num n => n != 0
  | .str s => s != ""
  | .arr l => !l.isEmpty
  | .obj m => !m.isEmpty

/-- Python exceptions that the source can raise but does not construct
explicitly (attribute/key/type errors escaping from dictionary and
subscript operations). -/
inductive PyErr where
  | keyError
  | typeError
  | attributeError
  | indexError
  | nameError
deriving DecidableEq, Repr

/-- Failure kinds of the module: `LibcloudError`, `InvalidCredsError` and
`MalformedResponseError` from `libcloud.compute.types`, plus uncaught Python
exceptions. -/
inductive AuthErr where
  | libcloudError (msg : String)
  | invalidCreds
  | malformedResponse (msg : String)
  | py (e : PyErr)
deriving DecidableEq, Repr

/-- Leading-match test on character lists. -/
def charsStartWith : List Char → List Char → Bool
  | [], _ => true
  | _ :: _, [] => false
  | a :: as, b :: bs => a == b && charsStartWith as bs

/-- Substring occurrence test on character lists. -/
def hasSubChars (pat : List Char) : List Char → Bool
  | [] => pat.isEmpty
  | c :: rest => charsStartWith pat (c :: rest) || hasSubChars pat rest

/-- The substring test `pat in s` used on auth-version strings
(`'2.0' in self._auth_version`). -/
def strIn (pat s : String) : Bool :=
  hasSubChars pat.toList s.toList

/-- First binding of `k` in an association list (a Python dictionary whose
keys are JSON values). -/
def alookup {α : Type} (m : List (Json × α)) (k : Json) : Option α :=
  match m with
  | [] => none
  | (k', v) :: rest => if k' = k then some v else alookup rest k

/-- The get-or-create-then-mutate idiom on a Python dictionary
(`if k not in m: m[k] = d` followed by an in-place update of `m[k]`):
an absent key is appended at the end, preserving insertion order. -/
def alistModify {α : Type} (m : List (Json × α)) (k : Json) (d : α) (f : α → α) :
    List (Json × α) :=
  match m with
  | [] => [(k, f d)]
  | (k', v) :: rest =>
      if k' = k then (k', f v) :: rest else (k', v) :: alistModify rest k d f

/-- Plain assignment `m[k] = v` on a Python dictionary. -/
def alistSet {α : Type} (m : List (Json × α)) (k : Json) (v : α) : List (Json × α) :=
  alistModify m k v (fun _ => v)

/-- An endpoint record: the fields of a JSON object, as stored by the catalog
(`{'region': ..., 'publicURL': ...}`). -/
abbrev Endpoint := List (String × Json)

/-- Field lookup in a string-keyed JSON object. -/
def epLookup (fields : List (String × Json)) (k : String) : Option Json :=
  match fields with
  | [] => none
  | (k', v) :: rest => if k' = k then some v else epLookup rest k

/-- Python `d.get(k)` / `d.get(k, None)` on a JSON object: an absent key
yields `None`. -/
def epGetD (e : List (String × Json)) (k : String) : Json :=
  (epLookup e k).getD .null

/-- Python subscript `j[k]` with a string key: `KeyError` when the key is
absent from an object, `TypeError` when `j` is not an object. -/
def jsonSub (j : Json) (k : String) : Except PyErr Json :=
  match j with
  | .obj fields =>
      match epLookup fields k with
      | some v => .ok v
      | none => .error .keyError
  | _ => .error .typeError

/-- The region key of an endpoint record: `endpoint.get('region')`
(also `endpoint.get('region', None)`); `None` when the field is absent. -/
def epRegion (e : Endpoint) : Json :=
  epGetD e "region"

/-- A region-keyed dictionary of ordered endpoint lists (the innermost level
of `_service_catalog`). -/
abbrev RegionMap := List (Json × List Endpoint)

/-- Lines 254-257 and 274-277 of the source: get-or-create the region's list,
then append the endpoint to it. -/
def addEndpointToRegionMap (rm : RegionMap) (e : Endpoint) : RegionMap :=
  alistModify rm (epRegion e) [] (fun es => es ++ [e])

/-- The middle level of a 2.0-family `_service_catalog`: service name →
region map. -/
abbrev NameMap := List (Json × RegionMap)

/-- The outer level of a 2.0-family `_service_catalog`: service type →
name map. -/
abbrev TypeMap := List (Json × NameMap)

/-- A 1.x-family `_service_catalog`: service name → region map. -/
abbrev V1Map := List (Json × RegionMap)

/-- One service descriptor of a 2.0-shape catalog payload, after the
dictionary reads `service['type']`, `service.get('name', None)` and
`service.get('endpoints', [])` have succeeded. -/
structure SvcDesc where
  ty : Json
  nm : Json
  eps : List Endpoint

/-- Reading one service descriptor out of its JSON value, with the Python
errors of `_parse_auth_v2`: a non-dictionary element fails its `['type']`
subscript with `TypeError`; a dictionary without `'type'` raises `KeyError`;
a non-list `'endpoints'` value fails iteration, and a non-dictionary endpoint
fails its `.get` call with `AttributeError`. -/
def jsonToEndpointList : Json → Except PyErr (List Endpoint)
  | .arr elems => elems.mapM (fun e =>
      match e with
      | .obj fields => .ok fields
      | _ => .error .attributeError)
  | .obj [] => .ok []
  | .str "" => .ok []
  | .obj (_ :: _) => .error .attributeError
  | .str _ => .error .attributeError
  | _ => .error .typeError

def svcOfJson (svc : Json) : Except PyErr SvcDesc :=
  match svc with
  | .obj fields => do
      let ty ← match epLookup fields "type" with
               | some v => Except.ok v
               | none => Except.error PyErr.keyError
      let nm := epGetD fields "name"
      let eps ← jsonToEndpointList ((epLookup fields "endpoints").getD (.arr []))
      .ok ⟨ty, nm, eps⟩
  | _ => .error .typeError

/-- Lines 266-277 of the source, for one service descriptor: get-or-create
the `type` and `name` levels, then fold the endpoints into the region map. -/
def addService (tm : TypeMap) (s : SvcDesc) : TypeMap :=
  alistModify tm s.ty []
    (fun nmm => alistModify nmm s.nm []
      (fun rm => s.eps.foldl addEndpointToRegionMap rm))

/-- The pure core of `_parse_auth_v2`: fold the service descriptors into the
three-level map, starting from the empty `_service_catalog`. -/
def buildV2 (svcs : List SvcDesc) : TypeMap :=
  svcs.foldl addService []

/-- Reading the 2.0-shape payload: `for service in service_catalog` iterates
a list; iterating a non-empty dictionary or string yields strings whose
`['type']` subscript raises `TypeError`; non-iterables raise `TypeError`. -/
def jsonToServices (sc : Json) : Except PyErr (List SvcDesc) :=
  match sc with
  | .arr services => services.mapM svcOfJson
  | .obj [] => .ok []
  | .str "" => .ok []
  | .obj (_ :: _) => .error .typeError
  | .str _ => .error .typeError
  | _ => .error .typeError

/-- `OpenStackServiceCatalog._parse_auth_v2` (lines 259-277). -/
def parse_auth_v2 (sc : Json) : Except PyErr TypeMap := do
  let svcs ← jsonToServices sc
  .ok (buildV2 svcs)

/-- `OpenStackServiceCatalog._parse_auth_v1` (lines 245-257):
`service_catalog.items()` requires a dictionary (`AttributeError` otherwise);
each value is regrouped by each endpoint's nullable region. -/
def parse_auth_v1 (sc : Json) : Except PyErr V1Map :=
  match sc with
  | .obj entries =>
      entries.foldlM
        (fun acc kv => do
          let eps ← jsonToEndpointList kv.2
          Except.ok (alistSet acc (.str kv.1) (eps.foldl addEndpointToRegionMap [])))
        []
  | _ => .error .attributeError

/-- A value stored inside the dynamically-typed `_service_catalog`
dictionary: either a list of endpoint records or a nested dictionary. -/
inductive CatVal where
  | lst (es : List Endpoint)
  | dct (m : List (Json × CatVal))

/-- Total dictionary access `m.get(k, d)` (the top-level `_service_catalog`
is always a dictionary). -/
def dget (m : List (Json × CatVal)) (k : Json) (d : CatVal) : CatVal :=
  match m with
  | [] => d
  | (k', v) :: rest => if k' = k then v else dget rest k d

/-- Method call `.get(k, d)` on a catalog value: lists have no `get`
attribute, so a list here raises `AttributeError`. -/
def CatVal.pyGet : CatVal → Json → CatVal → Except PyErr CatVal
  | .dct m, k, d => .ok (dget m k d)
  | .lst _, _, _ => .error .attributeError

/-- Python `len` of a catalog value (defined on both lists and
dictionaries). -/
def CatVal.pyLen : CatVal → Nat
  | .lst es => es.length
  | .dct m => m.length

/-- Python subscript `endpoint[0]`: first element of a list, `IndexError` on
an empty list; on a dictionary it is a key lookup, and the maps built by the
parsers never use the integer key `0`, so it raises `KeyError`. -/
def CatVal.index0 : CatVal → Except PyErr Endpoint
  | .lst (e :: _) => .ok e
  | .lst [] => .error .indexError
  | .dct _ => .error .keyError

/-- The shape a region map has inside `_service_catalog`. -/
def injRegionMap (rm : RegionMap) : CatVal :=
  .dct (rm.map (fun p => (p.1, CatVal.lst p.2)))

/-- The shape a 1.x-family `_service_catalog` has (name → region → list). -/
def injV1 (m : V1Map) : List (Json × CatVal) :=
  m.map (fun p => (p.1, injRegionMap p.2))

/-- The shape a 2.0-family `_service_catalog` has
(type → name → region → list). -/
def injV2 (t : TypeMap) : List (Json × CatVal) :=
  t.map (fun p => (p.1, CatVal.dct (injV1 p.2)))

/-- Module constant `AUTH_API_VERSION = '1.1'`. -/
def AUTH_API_VERSION : String := "1.1"

/-- The state of a constructed `OpenStackServiceCatalog` object. -/
structure OpenStackServiceCatalog where
  _auth_version : String
  _service_catalog : List (Json × CatVal)

/-- The defaulting `ex_force_auth_version or AUTH_API_VERSION` of line 221:
Python `or` falls through on `None` and on the empty string. -/
def effectiveVersion : Option String → String
  | some v => if v = "" then AUTH_API_VERSION else v
  | none => AUTH_API_VERSION

/-- `OpenStackServiceCatalog.__init__` (lines 220-230): default the version,
dispatch on substring containment, parse, or raise `LibcloudError`. -/
def catalogInit (service_catalog : Json) (ex_force_auth_version : Option String) :
    Except AuthErr OpenStackServiceCatalog :=
  if strIn "2.0" (effectiveVersion ex_force_auth_version) then
    match parse_auth_v2 service_catalog with
    | .ok tm => .ok ⟨effectiveVersion ex_force_auth_version, injV2 tm⟩
    | .error e => .error (.py e)
  else if strIn "1.1" (effectiveVersion ex_force_auth_version) ||
          strIn "1.0" (effectiveVersion ex_force_auth_version) then
    match parse_auth_v1 service_catalog with
    | .ok m => .ok ⟨effectiveVersion ex_force_auth_version, injV1 m⟩
    | .error e => .error (.py e)
  else
    .error (.libcloudError
      ("auth version \x22" ++ effectiveVersion ex_force_auth_version ++ "\x22 not supported"))

/-- The dictionary-get chain of `get_endpoint` (lines 234-237), version
dispatched; when neither version family matches, the local variable
`endpoint` is never bound, which is a `NameError` at the following `len`
call. -/
def getEndpointChain (c : OpenStackServiceCatalog) (service_type name region : Json) :
    Except PyErr CatVal :=
  if strIn "2.0" c._auth_version then do
    let a := dget c._service_catalog service_type (.dct [])
    let b ← a.pyGet name (.dct [])
    b.pyGet region (.lst [])
  else if strIn "1.1" c._auth_version || strIn "1.0" c._auth_version then do
    let a := dget c._service_catalog name (.dct [])
    a.pyGet region (.lst [])
  else
    .error .nameError

/-- `OpenStackServiceCatalog.get_endpoint` (lines 232-243). -/
def OpenStackServiceCatalog.get_endpoint (c : OpenStackServiceCatalog)
    (service_type name region : Json) : Except PyErr Endpoint := do
  let endpoint ← getEndpointChain c service_type name region
  if endpoint.pyLen = 1 then endpoint.index0 else .ok []

/-- The list of endpoint records resolved for a lookup triple: the result of
the dictionary-get chain when it is a list, `[]` otherwise. -/
def OpenStackServiceCatalog.resolveList (c : OpenStackServiceCatalog)
    (service_type name region : Json) : List Endpoint :=
  match getEndpointChain c service_type name region with
  | .ok (.lst es) => es
  | _ => []

/-- The selection policy of lines 240-243: a singleton list yields its
element, anything else yields the empty record `{}`. -/
def pickSingle : List Endpoint → Endpoint
  | [e] => e
  | _ => []

/-- A response body, abstracted by its `json.loads` outcome: `empty` is a
falsy body (`''` or `None`), `jsonOf j` a non-empty text that parses to `j`,
and `unparsable` a non-empty text on which `json.loads` raises. -/
inductive BodyText where
  | empty
  | jsonOf (j : Json)
  | unparsable
deriving DecidableEq, Repr

/-- An HTTP response as the auth code sees it: numeric status, a header
dictionary with string values, and the body. -/
structure Resp where
  status : Nat
  headers : List (String × String)
  body : BodyText
deriving DecidableEq, Repr

/-- First binding of `k` in a string-keyed header dictionary. -/
def hlookup (hs : List (String × String)) (k : String) : Option String :=
  match hs with
  | [] => none
  | (k', v) :: rest => if k' = k then some v else hlookup rest k

/-- Python `headers.get(k, None)` as a JSON value: the header string, or
`None` when absent. -/
def hGetD (hs : List (String × String)) (k : String) : Json :=
  match hlookup hs k with
  | some s => .str s
  | none => .null

/-- The value returned by `OpenStackAuthResponse.parse_body`: `None` for a
falsy body, a parsed JSON document for `application/json`, or the raw body
text for `text/plain` and every other content type. -/
inductive ParsedBody where
  | pnone
  | pjson (j : Json)
  | praw (b : BodyText)
deriving DecidableEq, Repr

/-- `OpenStackAuthResponse.parse_body` (lines 45-72). -/
def parse_body (body : BodyText) (headers : List (String × String)) :
    Except AuthErr ParsedBody :=
  match body with
  | .empty => .ok .pnone
  | b =>
      match (match hlookup headers "content-type" with
             | some v => some v
             | none => hlookup headers "Content-Type") with
      | none => .error (.libcloudError "Missing content-type header")
      | some ct0 =>
          let ct := (ct0.splitOn ";").headD ct0
          if ct = "application/json" then
            match b with
            | .jsonOf j => .ok (.pjson j)
            | _ => .error (.malformedResponse "Failed to parse JSON")
          else
            .ok (.praw b)

/-- The outcome of a successful authentication exchange: the values stored
into `self.auth_token` and `self.urls`. -/
structure AuthResult where
  auth_token : Json
  urls : Json
deriving Repr

/-- The 1.0 catalog synthesized from response headers (lines 131-134),
emulating the auth 1.1 URL list. -/
def v10Urls (headers : List (String × String)) : Json :=
  .obj [("cloudServers",
          .arr [.obj [("publicURL", hGetD headers "x-server-management-url")]]),
        ("cloudFilesCDN",
          .arr [.obj [("publicURL", hGetD headers "x-cdn-management-url")]]),
        ("cloudFiles",
          .arr [.obj [("publicURL", hGetD headers "x-storage-url")]])]

/-- `OpenStackAuthConnection.authenticate_1_0` (lines 113-138), as a function
of the auth endpoint's response: 401 raises `InvalidCredsError`; any other
status but 204 raises `MalformedResponseError`; otherwise the catalog is
synthesized from three response headers and a falsy `x-auth-token` header
raises `MalformedResponseError`. -/
def authenticate_1_0 (resp : Resp) : Except AuthErr AuthResult :=
  if resp.status = 401 then .error .invalidCreds
  else if resp.status ≠ 204 then .error (.malformedResponse "Malformed response")
  else if (hGetD resp.headers "x-auth-token").isTruthy then
    .ok ⟨hGetD resp.headers "x-auth-token", v10Urls resp.headers⟩
  else .error (.malformedResponse "Missing X-Auth-Token in response headers")

/-- The token extraction `body['auth']['token']['id']` of
`authenticate_1_1`. -/
def v11TokenId (body : Json) : Except PyErr Json := do
  jsonSub (← jsonSub (← jsonSub body "auth") "token") "id"

/-- `OpenStackAuthConnection.authenticate_1_1` (lines 140-166): 401 raises
`InvalidCredsError`; any other status but 200 raises
`MalformedResponseError`; a body that does not parse as JSON raises
`MalformedResponseError`; a `KeyError` while extracting the token or catalog
is converted to `MalformedResponseError`, while other exceptions (such as
`TypeError` on a non-dictionary) propagate uncaught. -/
def authenticate_1_1 (resp : Resp) : Except AuthErr AuthResult :=
  if resp.status = 401 then .error .invalidCreds
  else if resp.status ≠ 200 then .error (.malformedResponse "Malformed response")
  else
    match resp.body with
    | .jsonOf body =>
        match (do
          let tid ← v11TokenId body
          let urls ← jsonSub (← jsonSub body "auth") "serviceCatalog"
          Except.ok (AuthResult.mk tid urls) : Except PyErr AuthResult) with
        | .ok r => .ok r
        | .error .keyError =>
            .error (.malformedResponse "Auth JSON response is missing required elements")
        | .error e => .error (.py e)
    | _ => .error (.malformedResponse "Failed to parse JSON")

/-- The token extraction `body['access']['token']['id']` of
`authenticate_2_0_with_body`. -/
def v20TokenId (body : Json) : Except PyErr Json := do
  jsonSub (← jsonSub (← jsonSub body "access") "token") "id"

/-- `OpenStackAuthConnection.authenticate_2_0_with_body` (lines 179-204):
like 1.1 but accepting statuses 200 and 203 and reading
`access.token.id` / `access.serviceCatalog`. -/
def authenticate_2_0_with_body (resp : Resp) : Except AuthErr AuthResult :=
  if resp.status = 401 then .error .invalidCreds
  else if resp.status ≠ 200 ∧ resp.status ≠ 203 then
    .error (.malformedResponse "Malformed response")
  else
    match resp.body with
    | .jsonOf body =>
        match (do
          let tid ← v20TokenId body
          let urls ← jsonSub (← jsonSub body "access") "serviceCatalog"
          Except.ok (AuthResult.mk tid urls) : Except PyErr AuthResult) with
        | .ok r => .ok r
        | .error .keyError =>
            .error (.malformedResponse "Auth JSON response is missing required elements")
        | .error e => .error (.py e)
    | _ => .error (.malformedResponse "Failed to parse JSON")

/-- The recognized `auth_version` strings of the dispatch in
`OpenStackAuthConnection.authenticate` (lines 101-111). -/
def recognizedVersions : List String :=
  ["1.0", "1.1", "2.0", "2.0_apikey", "2.0_password"]

/-- `OpenStackAuthConnection.authenticate` (lines 101-111), as a function of
the credentials and of the response the auth endpoint would give.  The
first component counts the HTTP exchanges performed against the auth
endpoint: each version handler issues exactly one request, and the
unsupported-version branch raises before any request. -/
def authenticate (auth_version user_id key : String) (resp : Resp) :
    Nat × Except AuthErr AuthResult :=
  if auth_version = "1.0" then (1, authenticate_1_0 resp)
  else if auth_version = "1.1" then (1, authenticate_1_1 resp)
  else if auth_version = "2.0" ∨ auth_version = "2.0_apikey" then
    (1, authenticate_2_0_with_body resp)
  else if auth_version = "2.0_password" then (1, authenticate_2_0_with_body resp)
  else (0, .error (.libcloudError "Unsupported Auth Version requested"))

/-- The mutable state of an `OpenStackBaseConnection`:  `auth_token` is the
JSON value received from the negotiator (class attribute `None` initially,
and possibly a non-string), `service_catalog` is `None` until built, and the
connection-target fields are whatever the generic base class put there. -/
structure ConnState where
  auth_token : Json
  service_catalog : Option OpenStackServiceCatalog
  auth_url : Option String
  _ex_force_base_url : Option String
  _ex_force_auth_url : Option String
  _auth_version : String
  user_id : String
  key : String
  host : String
  port : Nat
  secure : Bool
  request_path : String

/-- External collaborators of `_populate_hosts_and_request_paths`: the
response the auth endpoint gives, the driver-supplied `get_endpoint`
override (which may raise, e.g. `NotImplementedError` left abstract as a
`LibcloudError` here), and the base class's `_tuple_from_url` URL
decomposition. -/
structure Env where
  resp : Resp
  driver_endpoint : OpenStackServiceCatalog → Except AuthErr String
  tuple_from_url : String → String × Nat × Bool × String

/-- Python truthiness of the optional string `_ex_force_base_url` (the `or`
at line 356 falls through on `None` and on `''`). -/
def optStrTruthy : Option String → Bool
  | none => false
  | some s => s != ""

/-- `OpenStackBaseConnection._populate_hosts_and_request_paths`
(lines 330-356), returning the final state, the number of auth-endpoint
exchanges performed, and the exception raised if any.  Mutations happen in
source order, so a failure after `self.auth_token` was assigned leaves the
token in place. -/
def populate (env : Env) (s : ConnState) : ConnState × Nat × Option AuthErr :=
  if s.auth_token.isTruthy then (s, 0, none)
  else
    match (match s._ex_force_auth_url with
           | some u => some u
           | none => s.auth_url) with
    | none => (s, 0, some (.libcloudError "OpenStack instance must have auth_url set"))
    | some _ =>
        match (authenticate s._auth_version s.user_id s.key env.resp).2 with
        | .error e => (s, (authenticate s._auth_version s.user_id s.key env.resp).1, some e)
        | .ok a =>
            match catalogInit a.urls (some s._auth_version) with
            | .error e =>
                ({ s with auth_token := a.auth_token },
                 (authenticate s._auth_version s.user_id s.key env.resp).1, some e)
            | .ok cat =>
                match (if optStrTruthy s._ex_force_base_url then
                         Except.ok (s._ex_force_base_url.getD "")
                       else
                         env.driver_endpoint cat) with
                | .error e =>
                    ({ s with auth_token := a.auth_token, service_catalog := some cat },
                     (authenticate s._auth_version s.user_id s.key env.resp).1, some e)
                | .ok url =>
                    ({ s with auth_token := a.auth_token, service_catalog := some cat,
                              host := (env.tuple_from_url url).1,
                              port := (env.tuple_from_url url).2.1,
                              secure := (env.tuple_from_url url).2.2.1,
                              request_path := (env.tuple_from_url url).2.2.2 },
                     (authenticate s._auth_version s.user_id s.key env.resp).1, none)

/-! ### Lookup lemmas for the association-list dictionaries -/

theorem alookup_map {α β : Type} (g : α → β) (m : List (Json × α)) (k : Json) :
    alookup (m.map (fun p => (p.1, g p.2))) k = (alookup m k).map g := by
  induction m with
  | nil => rfl
  | cons p rest ih =>
      simp only [List.map, alookup]
      split <;> simp [ih]

theorem dget_eq (m : List (Json × CatVal)) (k : Json) (d : CatVal) :
    dget m k d = ((alookup m k).getD d) := by
  induction m with
  | nil => rfl
  | cons p rest ih =>
      simp only [dget, alookup]
      split <;> simp [ih]

theorem alookup_alistModify {α : Type} (m : List (Json × α)) (k q : Json) (d : α)
    (f : α → α) :
    alookup (alistModify m k d f) q =
      if k = q then some (f ((alookup m k).getD d)) else alookup m q := by
  induction m with
  | nil =>
      simp only [alistModify, alookup]
      split <;> simp_all
  | cons p rest ih =>
      simp only [alistModify]
      by_cases h1 : p.1 = k
      · simp only [h1, if_pos rfl, alookup]
        by_cases h2 : k = q <;> simp [h1, h2]
      · simp only [if_neg h1, alookup]
        by_cases h2 : p.1 = q
        · have hkq : ¬ k = q := fun h => h1 (h ▸ h2)
          simp [h2, hkq, if_neg h1]
        · simp [h2, ih, if_neg h1]

/-! ### Grouping lemmas for the region maps -/

theorem alookup_addEndpoints (eps : List Endpoint) (rm : RegionMap) (r : Json) :
    (alookup (eps.foldl addEndpointToRegionMap rm) r).getD [] =
      (alookup rm r).getD [] ++ eps.filter (fun e => decide (epRegion e = r)) := by
  induction eps generalizing rm with
  | nil => simp
  | cons e rest ih =>
      simp only [List.foldl, List.filter]
      rw [ih]
      unfold addEndpointToRegionMap
      rw [alookup_alistModify]
      by_cases h : epRegion e = r
      · simp [h]
      · simp [h]

theorem alookup_addEndpoints_isSome (eps : List Endpoint) (rm : RegionMap) (r : Json) :
    (alookup (eps.foldl addEndpointToRegionMap rm) r).isSome =
      ((alookup rm r).isSome || eps.any (fun e => decide (epRegion e = r))) := by
  induction eps generalizing rm with
  | nil => simp
  | cons e rest ih =>
      simp only [List.foldl, List.any]
      rw [ih]
      unfold addEndpointToRegionMap
      rw [alookup_alistModify]
      by_cases h : epRegion e = r
      · simp [h]
      · simp [h]

/-! ### Characterization of the 2.0 index builder -/

/-- The endpoint list stored under `[ty][nm][r]` in a 2.0-family map,
with missing keys resolving to the empty list. -/
def lookupRegionList (t : TypeMap) (ty nm r : Json) : List Endpoint :=
  (alookup ((alookup ((alookup t ty).getD []) nm).getD []) r).getD []

/-- The endpoint list stored under `[nm][r]` in a 1.x-family map. -/
def lookupRegionListV1 (m : V1Map) (nm r : Json) : List Endpoint :=
  (alookup ((alookup m nm).getD []) r).getD []

/-- The spec's declarative description of the 2.0 grouping: every matching
service descriptor contributes, in declared order, those of its endpoints
whose region key matches. -/
def specGroupV2 (svcs : List SvcDesc) (ty nm r : Json) : List Endpoint :=
  svcs.flatMap (fun s =>
    if s.ty = ty ∧ s.nm = nm then s.eps.filter (fun e => decide (epRegion e = r))
    else [])

theorem lookupRegionList_addService (t : TypeMap) (s : SvcDesc) (ty nm r : Json) :
    lookupRegionList (addService t s) ty nm r =
      lookupRegionList t ty nm r ++
        (if s.ty = ty ∧ s.nm = nm then s.eps.filter (fun e => decide (epRegion e = r))
         else []) := by
  unfold lookupRegionList addService
  rw [alookup_alistModify]
  by_cases h1 : s.ty = ty
  · rw [if_pos h1]
    simp only [Option.getD_some]
    rw [alookup_alistModify]
    by_cases h2 : s.nm = nm
    · rw [if_pos h2]
      simp only [Option.getD_some]
      rw [alookup_addEndpoints]
      simp [h1, h2]
    · rw [if_neg h2]
      simp [h1, h2]
  · rw [if_neg h1]
    simp [h1]

theorem lookupRegionList_foldl (svcs : List SvcDesc) (t0 : TypeMap) (ty nm r : Json) :
    lookupRegionList (svcs.foldl addService t0) ty nm r =
      lookupRegionList t0 ty nm r ++ specGroupV2 svcs ty nm r := by
  induction svcs generalizing t0 with
  | nil => simp [specGroupV2]
  | cons s rest ih =>
      simp only [List.foldl]
      rw [ih, lookupRegionList_addService]
      simp [specGroupV2, List.append_assoc]

theorem alookup_addService_ty_isSome (t : TypeMap) (s : SvcDesc) (ty : Json) :
    (alookup (addService t s) ty).isSome =
      ((alookup t ty).isSome || decide (s.ty = ty)) := by
  unfold addService
  rw [alookup_alistModify]
  by_cases h : s.ty = ty
  · simp [h]
  · simp [h]

theorem alookup_buildV2_ty_isSome (svcs : List SvcDesc) (t0 : TypeMap) (ty : Json) :
    (alookup (svcs.foldl addService t0) ty).isSome =
      ((alookup t0 ty).isSome || svcs.any (fun s => decide (s.ty = ty))) := by
  induction svcs generalizing t0 with
  | nil => simp
  | cons s rest ih =>
      simp only [List.foldl, List.any]
      rw [ih, alookup_addService_ty_isSome]
      simp [Bool.or_assoc]

theorem alookup_addService_nm_isSome (t : TypeMap) (s : SvcDesc) (ty nm : Json) :
    (alookup ((alookup (addService t s) ty).getD []) nm).isSome =
      ((alookup ((alookup t ty).getD []) nm).isSome ||
        (decide (s.ty = ty) && decide (s.nm = nm))) := by
  unfold addService
  rw [alookup_alistModify]
  by_cases h1 : s.ty = ty
  · rw [if_pos h1]
    simp only [Option.getD_some]
    rw [alookup_alistModify]
    by_cases h2 : s.nm = nm
    · simp [h1, h2]
    · simp [h1, h2]
  · rw [if_neg h1]
    simp [h1]

theorem alookup_buildV2_nm_isSome (svcs : List SvcDesc) (t0 : TypeMap) (ty nm : Json) :
    (alookup ((alookup (svcs.foldl addService t0) ty).getD []) nm).isSome =
      ((alookup ((alookup t0 ty).getD []) nm).isSome ||
        svcs.any (fun s => decide (s.ty = ty) && decide (s.nm = nm))) := by
  induction svcs generalizing t0 with
  | nil => simp
  | cons s rest ih =>
      simp only [List.foldl, List.any]
      rw [ih, alookup_addService_nm_isSome]
      simp [Bool.or_assoc]

/-! ### Totality of the dictionary-get chain on constructor-built catalogs -/

theorem except_bind_ok {ε α β : Type} (a : α) (f : α → Except ε β) :
    (Except.ok a >>= f : Except ε β) = f a := rfl

theorem except_bind_error {ε α β : Type} (e : ε) (f : α → Except ε β) :
    (Except.error e >>= f : Except ε β) = .error e := rfl

theorem map_some_getD {α β : Type} (f : α → β) (a : α) (d : β) :
    (Option.map f (some a)).getD d = f a := rfl

theorem map_none_getD {α β : Type} (f : α → β) (d : β) :
    (Option.map f (none : Option α)).getD d = d := rfl

theorem alookup_injV2 (t : TypeMap) (k : Json) :
    alookup (injV2 t) k = (alookup t k).map (fun nmm => CatVal.dct (injV1 nmm)) := by
  induction t with
  | nil => rfl
  | cons p rest ih =>
      simp only [injV2, List.map, alookup] at *
      split <;> simp_all

theorem alookup_injV1 (m : V1Map) (k : Json) :
    alookup (injV1 m) k = (alookup m k).map injRegionMap := by
  induction m with
  | nil => rfl
  | cons p rest ih =>
      simp only [injV1, List.map, alookup] at *
      split <;> simp_all

theorem alookup_injRegionMap (rm : RegionMap) (k : Json) :
    alookup (rm.map (fun p => (p.1, CatVal.lst p.2))) k =
      (alookup rm k).map CatVal.lst := by
  induction rm with
  | nil => rfl
  | cons p rest ih =>
      simp only [List.map, alookup] at *
      split <;> simp_all

theorem getEndpointChain_v2 (c : OpenStackServiceCatalog) (t : TypeMap)
    (st nm r : Json) (hv : strIn "2.0" c._auth_version = true)
    (hs : c._service_catalog = injV2 t) :
    getEndpointChain c st nm r = .ok (.lst (lookupRegionList t st nm r)) := by
  unfold getEndpointChain
  rw [if_pos hv, hs, dget_eq, alookup_injV2]
  unfold lookupRegionList
  cases h1 : alookup t st with
  | none =>
      rw [map_none_getD]
      simp only [CatVal.pyGet, except_bind_ok, dget, alookup, Option.getD_none]
  | some nmm =>
      rw [map_some_getD]
      simp only [CatVal.pyGet, except_bind_ok, Option.getD_some]
      rw [dget_eq, alookup_injV1]
      cases h2 : alookup nmm nm with
      | none =>
          rw [map_none_getD]
          simp only [CatVal.pyGet, dget, alookup, Option.getD_none]
      | some rm =>
          rw [map_some_getD]
          simp only [injRegionMap, CatVal.pyGet, Option.getD_some]
          rw [dget_eq, alookup_injRegionMap]
          cases h3 : alookup rm r with
          | none => rw [map_none_getD]; rfl
          | some es => rw [map_some_getD]; rfl

theorem getEndpointChain_v1 (c : OpenStackServiceCatalog) (m : V1Map)
    (st nm r : Json) (hv2 : strIn "2.0" c._auth_version = false)
    (hv1 : (strIn "1.1" c._auth_version || strIn "1.0" c._auth_version) = true)
    (hs : c._service_catalog = injV1 m) :
    getEndpointChain c st nm r = .ok (.lst (lookupRegionListV1 m nm r)) := by
  unfold getEndpointChain
  rw [if_neg (by simp [hv2]), if_pos hv1, hs, dget_eq, alookup_injV1]
  unfold lookupRegionListV1
  cases h1 : alookup m nm with
  | none =>
      rw [map_none_getD]
      simp only [CatVal.pyGet, dget, alookup, Option.getD_none]
  | some rm =>
      rw [map_some_getD]
      simp only [injRegionMap, CatVal.pyGet, Option.getD_some]
      rw [dget_eq, alookup_injRegionMap]
      cases h2 : alookup rm r with
      | none => rw [map_none_getD]; rfl
      | some es => rw [map_some_getD]; rfl

theorem get_endpoint_of_chain (c : OpenStackServiceCatalog) (st nm r : Json)
    (es : List Endpoint) (h : getEndpointChain c st nm r = .ok (.lst es)) :
    c.get_endpoint st nm r = .ok (pickSingle es) ∧ c.resolveList st nm r = es := by
  constructor
  · unfold OpenStackServiceCatalog.get_endpoint
    rw [h]
    match es with
    | [] => rfl
    | [e] => rfl
    | e1 :: e2 :: rest =>
        simp only [except_bind_ok, CatVal.pyLen, pickSingle, List.length]
        rw [if_neg (by omega)]
  · unfold OpenStackServiceCatalog.resolveList
    rw [h]

/-- Inversion of the constructor: a successfully built catalog holds either
a 2.0-shaped or a 1.x-shaped index, matching its version string. -/
theorem catalogInit_shape (sc : Json) (v : Option String) (c : OpenStackServiceCatalog)
    (h : catalogInit sc v = .ok c) :
    (strIn "2.0" c._auth_version = true ∧ ∃ t, c._service_catalog = injV2 t) ∨
    (strIn "2.0" c._auth_version = false ∧
      (strIn "1.1" c._auth_version || strIn "1.0" c._auth_version) = true ∧
      ∃ m, c._service_catalog = injV1 m) := by
  unfold catalogInit at h
  split at h
  · rename_i h2
    cases hp : parse_auth_v2 sc with
    | ok tm =>
        rw [hp] at h
        cases h
        exact Or.inl ⟨h2, tm, rfl⟩
    | error e =>
        rw [hp] at h
        exact absurd h (by simp)
  · rename_i h2
    split at h
    · rename_i h1
      cases hp : parse_auth_v1 sc with
      | ok m =>
          rw [hp] at h
          cases h
          exact Or.inr ⟨by simpa using h2, h1, m, rfl⟩
      | error e =>
          rw [hp] at h
          exact absurd h (by simp)
    · exact absurd h (by simp)

/-! ### Claims -/

/-- C1: for every catalog index successfully built by the
`OpenStackServiceCatalog` constructor and for every `(service_type, name,
region)` triple — including `None` values and keys absent from the index —
`get_endpoint` never raises: missing intermediate keys resolve to an empty
mapping and the call always returns a value. -/
theorem get_endpoint_total (sc : Json) (v : Option String)
    (c : OpenStackServiceCatalog) (h : catalogInit sc v = .ok c)
    (service_type name region : Json) :
    (c.get_endpoint service_type name region).isOk = true := by
  rcases catalogInit_shape sc v c h with ⟨hv, t, hs⟩ | ⟨hv2, hv1, m, hs⟩
  · have hc := getEndpointChain_v2 c t service_type name region hv hs
    rw [(get_endpoint_of_chain c service_type name region _ hc).1]
    rfl
  · have hc := getEndpointChain_v1 c m service_type name region hv2 hv1 hs
    rw [(get_endpoint_of_chain c service_type name region _ hc).1]
    rfl

theorem get_endpoint_total_witness :
    ((⟨"1.1", []⟩ : OpenStackServiceCatalog).get_endpoint
        .null (.str "cloudServers") .null).isOk = true :=
  get_endpoint_total (Json.obj []) (some "1.1") ⟨"1.1", []⟩ rfl
    .null (.str "cloudServers") .null

/-- A 2.0-shape catalog payload holding two endpoints for the same
`(type, name)` under two different regions. -/
def c2ScenSC : Json :=
  .arr [.obj [("type", .str "compute"), ("name", .str "cloudServersOpenStack"),
    ("endpoints", .arr [
      .obj [("region", .str "DFW"),
            ("publicURL", .str "https://dfw.servers.api.example.com/v2")],
      .obj [("region", .str "ORD"),
            ("publicURL", .str "https://ord.servers.api.example.com/v2")]])]]

/-- The catalog index built from `c2ScenSC` under auth version 2.0. -/
def c2Cat : OpenStackServiceCatalog :=
  match catalogInit c2ScenSC (some "2.0") with
  | .ok c => c
  | .error _ => ⟨"", []⟩

/-- C2: for every built catalog index and every triple, a singleton resolved
list is returned as that record and anything else yields `{}`; in
particular, on a 2.0 catalog with a DFW and an ORD endpoint for the same
`(type, name)`, lookup with region `"DFW"` returns only the DFW record and
lookup with region `None` returns empty. -/
theorem get_endpoint_selection :
    (∀ sc v c st nm r, catalogInit sc v = .ok c →
        c.get_endpoint st nm r = .ok (pickSingle (c.resolveList st nm r)))
    ∧ catalogInit c2ScenSC (some "2.0") = .ok c2Cat
    ∧ c2Cat.get_endpoint (.str "compute") (.str "cloudServersOpenStack") (.str "DFW")
        = .ok [("region", .str "DFW"),
               ("publicURL", .str "https://dfw.servers.api.example.com/v2")]
    ∧ c2Cat.get_endpoint (.str "compute") (.str "cloudServersOpenStack") .null
        = .ok [] := by
  refine ⟨?_, rfl, rfl, rfl⟩
  intro sc v c st nm r h
  rcases catalogInit_shape sc v c h with ⟨hv, t, hs⟩ | ⟨hv2, hv1, m, hs⟩
  · have hc := getEndpointChain_v2 c t st nm r hv hs
    obtain ⟨h1, h2⟩ := get_endpoint_of_chain c st nm r _ hc
    rw [h1, h2]
  · have hc := getEndpointChain_v1 c m st nm r hv2 hv1 hs
    obtain ⟨h1, h2⟩ := get_endpoint_of_chain c st nm r _ hc
    rw [h1, h2]

theorem get_endpoint_selection_witness :
    c2Cat.get_endpoint (.str "compute") (.str "absent") (.str "DFW")
      = .ok (pickSingle (c2Cat.resolveList (.str "compute") (.str "absent") (.str "DFW"))) :=
  get_endpoint_selection.1 c2ScenSC (some "2.0") c2Cat
    (.str "compute") (.str "absent") (.str "DFW") (by rfl)

/-- C6: building the 2.0 index groups, for every payload and every triple,
exactly the matching services' endpoints by region, preserving declared
order and accumulating duplicates; the outer keys are exactly the declared
types and (optional) names. -/
theorem parse_v2_grouping :
    (∀ sc svcs, jsonToServices sc = .ok svcs → parse_auth_v2 sc = .ok (buildV2 svcs))
    ∧ (∀ svcs ty nm r, lookupRegionList (buildV2 svcs) ty nm r = specGroupV2 svcs ty nm r)
    ∧ (∀ svcs ty, (alookup (buildV2 svcs) ty).isSome
        = svcs.any (fun s => decide (s.ty = ty)))
    ∧ (∀ svcs ty nm, (alookup ((alookup (buildV2 svcs) ty).getD []) nm).isSome
        = svcs.any (fun s => decide (s.ty = ty) && decide (s.nm = nm))) := by
  refine ⟨?_, ?_, ?_, ?_⟩
  · intro sc svcs h
    unfold parse_auth_v2
    rw [h]
    rfl
  · intro svcs ty nm r
    unfold buildV2
    rw [lookupRegionList_foldl]
    simp [lookupRegionList, alookup]
  · intro svcs ty
    unfold buildV2
    rw [alookup_buildV2_ty_isSome]
    simp [alookup]
  · intro svcs ty nm
    unfold buildV2
    rw [alookup_buildV2_nm_isSome]
    simp [alookup]

theorem parse_v2_grouping_witness :
    parse_auth_v2 (Json.arr []) = .ok (buildV2 []) :=
  parse_v2_grouping.1 (Json.arr []) [] rfl

/-- C3: for every recognized auth version and every credential pair, a 401
response always yields `InvalidCredsError`, regardless of the response body
or headers, and never a malformed-response failure. -/
theorem unauthorized_always_invalid_creds :
    ∀ v ∈ recognizedVersions, ∀ (u k : String) (resp : Resp), resp.status = 401 →
      (authenticate v u k resp).2 = .error .invalidCreds := by
  intro v hv u k resp h
  fin_cases hv <;>
    simp [authenticate, authenticate_1_0, authenticate_1_1,
      authenticate_2_0_with_body, h]

theorem unauthorized_always_invalid_creds_witness :
    (authenticate "1.0" "user" "key" ⟨401, [], .empty⟩).2 = .error .invalidCreds :=
  unauthorized_always_invalid_creds "1.0" (by decide) "user" "key"
    ⟨401, [], .empty⟩ rfl

/-- C4 counterexample: a 1.1 exchange whose body carries an empty token id
returns successfully with the empty string stored as the token, so a
successful `authenticate` does not guarantee a non-empty token. -/
theorem empty_token_success_counterexample :
    authenticate "1.1" "user" "key"
        ⟨200, [], .jsonOf (.obj [("auth", .obj [
          ("token", .obj [("id", .str "")]),
          ("serviceCatalog", .obj [])])])⟩
      = (1, .ok ⟨.str "", .obj []⟩)
    ∧ (Json.str "").isTruthy = false :=
  ⟨rfl, rfl⟩

/-- C4 amended: an absent token always raises `MalformedResponseError`
(1.0 checks the header's truthiness, so a successful 1.0 return implies a
truthy token; 1.1 and 2.0 convert the `KeyError` of a missing
`token.id` path); but 1.1 and 2.0 store a present token value unchecked, so
only the 1.0 path guarantees non-emptiness. -/
theorem auth_token_checks :
    (∀ resp r, authenticate_1_0 resp = .ok r → r.auth_token.isTruthy = true)
    ∧ (∀ resp, resp.status = 204 →
        (hGetD resp.headers "x-auth-token").isTruthy = false →
        authenticate_1_0 resp
          = .error (.malformedResponse "Missing X-Auth-Token in response headers"))
    ∧ (∀ resp body, resp.status = 200 → resp.body = .jsonOf body →
        v11TokenId body = .error .keyError →
        authenticate_1_1 resp
          = .error (.malformedResponse "Auth JSON response is missing required elements"))
    ∧ (∀ resp body, resp.status = 200 → resp.body = .jsonOf body →
        v20TokenId body = .error .keyError →
        authenticate_2_0_with_body resp
          = .error (.malformedResponse "Auth JSON response is missing required elements")) := by
  refine ⟨?_, ?_, ?_, ?_⟩
  · intro resp r h
    unfold authenticate_1_0 at h
    split at h
    · exact absurd h (by simp)
    · split at h
      · exact absurd h (by simp)
      · split at h
        · rename_i ht
          cases h
          exact ht
        · exact absurd h (by simp)
  · intro resp h204 hfal
    simp [authenticate_1_0, h204, hfal]
  · intro resp body hst hbody htok
    simp [authenticate_1_1, hst, hbody, htok, except_bind_error]
  · intro resp body hst hbody htok
    simp [authenticate_2_0_with_body, hst, hbody, htok, except_bind_error]

theorem auth_token_checks_witness :
    authenticate_1_0 ⟨204, [], .empty⟩
      = .error (.malformedResponse "Missing X-Auth-Token in response headers") :=
  auth_token_checks.2.1 ⟨204, [], .empty⟩ rfl rfl

/-- The V1.1 success response of the C7 scenario. -/
def c7Resp : Resp :=
  ⟨200, [], .jsonOf (.obj [("auth", .obj [
    ("token", .obj [("id", .str "tok123")]),
    ("serviceCatalog", .obj [("cloudServers",
      .arr [.obj [("region", .null), ("publicURL", .str "https://x/compute")]])])])])⟩

/-- The `serviceCatalog` value carried by `c7Resp`. -/
def c7SC : Json :=
  .obj [("cloudServers",
    .arr [.obj [("region", .null), ("publicURL", .str "https://x/compute")]])]

/-- C7: the 1.1 exchange on the scenario body succeeds with token `tok123`,
and looking up the resulting catalog by `name="cloudServers"`,
`region=None` returns exactly the declared record. -/
theorem v11_scenario :
    authenticate "1.1" "user" "key" c7Resp = (1, .ok ⟨.str "tok123", c7SC⟩)
    ∧ (catalogInit c7SC (some "1.1")).map
        (fun c => c.get_endpoint .null (.str "cloudServers") .null)
      = .ok (.ok [("region", .null), ("publicURL", .str "https://x/compute")]) :=
  ⟨rfl, rfl⟩

/-- Each recognized version issues exactly one exchange; otherwise the
dispatch raises before any request. -/
theorem authenticate_count (v u k : String) (resp : Resp) :
    (authenticate v u k resp).1 = 1
    ∨ authenticate v u k resp
        = (0, .error (.libcloudError "Unsupported Auth Version requested")) := by
  unfold authenticate
  split
  · exact Or.inl rfl
  · split
    · exact Or.inl rfl
    · split
      · exact Or.inl rfl
      · split
        · exact Or.inl rfl
        · exact Or.inr rfl

/-- A successful pass from an unauthenticated state performed the dispatch's
exchange count and the exchange itself succeeded. -/
theorem populate_success_count (env : Env) (s : ConnState)
    (hf : s.auth_token.isTruthy = false) :
    (populate env s).2.2 = none →
      (populate env s).2.1 = (authenticate s._auth_version s.user_id s.key env.resp).1
      ∧ (authenticate s._auth_version s.user_id s.key env.resp).2.isOk = true := by
  unfold populate
  rw [if_neg (by simp [hf])]
  split
  · intro hnone
    simp at hnone
  · split
    · intro hnone
      simp at hnone
    · rename_i a heq
      split
      · intro hnone
        simp at hnone
      · split
        · intro hnone
          simp at hnone
        · intro _
          refine ⟨rfl, ?_⟩
          rw [heq]
          rfl

/-- C5 amended: once the stored token is truthy, the ensure-authenticated
step is a no-op (state unchanged, no exchange); hence a first successful
call that stores a truthy token is followed by a free second call, and when
the connection started unauthenticated that first call performed exactly one
exchange.  (A successful call may store a falsy token — see the
counterexample — in which case the next call authenticates again.) -/
theorem populate_idempotent :
    ∀ env s s1 n1, populate env s = (s1, n1, none) →
      s1.auth_token.isTruthy = true →
      populate env s1 = (s1, 0, none)
      ∧ (s.auth_token.isTruthy = false → n1 = 1) := by
  intro env s s1 n1 h ht
  refine ⟨?_, ?_⟩
  · unfold populate
    rw [if_pos ht]
  · intro hf
    have hnone : (populate env s).2.2 = none := by rw [h]
    have hps := populate_success_count env s hf hnone
    have hn1 : n1 = (populate env s).2.1 := by rw [h]
    rw [hn1, hps.1]
    rcases authenticate_count s._auth_version s.user_id s.key env.resp with hc | hc
    · exact hc
    · rw [hc] at hps
      exact absurd hps.2 (by decide)

def c5Resp : Resp :=
  ⟨200, [], .jsonOf (.obj [("auth", .obj [
    ("token", .obj [("id", .str "")]),
    ("serviceCatalog", .obj [])])])⟩

def c5Env : Env := ⟨c5Resp, fun _ => .ok "http://h/p", fun _ => ("h", 80, false, "/p")⟩

def c5S0 : ConnState :=
  ⟨.null, none, some "http://auth", none, none, "1.1", "u", "k", "", 443, true, ""⟩

/-- C5 counterexample: a 1.1 exchange that succeeds with an empty token
leaves the connection falsy, so two consecutive ensure-authenticated calls
each perform an exchange (two in total, not one). -/
theorem populate_twice_two_exchanges_counterexample :
    (populate c5Env c5S0).2 = (1, none)
    ∧ (populate c5Env (populate c5Env c5S0).1).2 = (1, none) :=
  ⟨rfl, rfl⟩

def c5wEnv : Env :=
  ⟨⟨204, [("x-auth-token", "tok"), ("x-server-management-url", "https://m")], .empty⟩,
   fun _ => .ok "http://h/p", fun _ => ("h", 80, false, "/p")⟩

def c5wS0 : ConnState :=
  ⟨.null, none, some "http://auth", none, none, "1.0", "u", "k", "", 443, true, ""⟩

def c5wS1 : ConnState := (populate c5wEnv c5wS0).1

theorem populate_idempotent_witness :
    populate c5wEnv c5wS1 = (c5wS1, 0, none)
    ∧ (c5wS0.auth_token.isTruthy = false → 1 = 1) :=
  populate_idempotent c5wEnv c5wS0 c5wS1 1 rfl rfl

/-- C8 counterexample: `"2.0.1"` is outside the recognized version set, yet
the catalog constructor accepts it (substring dispatch) and builds an index
instead of failing. -/
theorem unsupported_version_builds_counterexample :
    recognizedVersions.contains "2.0.1" = false
    ∧ catalogInit (Json.arr []) (some "2.0.1") = .ok ⟨"2.0.1", []⟩ :=
  ⟨rfl, rfl⟩

/-- C8 amended: the authenticate dispatch fails with `LibcloudError` for
every version outside the recognized set, before any exchange; the catalog
constructor fails with `LibcloudError` exactly for (non-defaulted) versions
containing none of `"2.0"`, `"1.1"`, `"1.0"` as a substring, so an
unrecognized version such as `"2.0.1"` still builds an index. -/
theorem unsupported_version_amended :
    (∀ v, recognizedVersions.contains v = false → ∀ (u k : String) (resp : Resp),
        authenticate v u k resp
          = (0, .error (.libcloudError "Unsupported Auth Version requested")))
    ∧ (∀ v sc, v ≠ "" → strIn "2.0" v = false → strIn "1.1" v = false →
        strIn "1.0" v = false →
        catalogInit sc (some v)
          = .error (.libcloudError ("auth version \x22" ++ v ++ "\x22 not supported"))) := by
  constructor
  · intro v hv u k resp
    have h1 : v ≠ "1.0" := fun he => by rw [he] at hv; exact absurd hv (by decide)
    have h2 : v ≠ "1.1" := fun he => by rw [he] at hv; exact absurd hv (by decide)
    have h3 : v ≠ "2.0" := fun he => by rw [he] at hv; exact absurd hv (by decide)
    have h4 : v ≠ "2.0_apikey" := fun he => by rw [he] at hv; exact absurd hv (by decide)
    have h5 : v ≠ "2.0_password" := fun he => by rw [he] at hv; exact absurd hv (by decide)
    simp [authenticate, h1, h2, h3, h4, h5]
  · intro v sc hne h20 h11 h10
    have hv : effectiveVersion (some v) = v := by simp [effectiveVersion, hne]
    simp [catalogInit, hv, h20, h11, h10]

theorem unsupported_version_amended_witness :
    authenticate "3.0" "user" "key" ⟨200, [], .empty⟩
      = (0, .error (.libcloudError "Unsupported Auth Version requested")) :=
  unsupported_version_amended.1 "3.0" rfl "user" "key" ⟨200, [], .empty⟩

/-- C9 counterexample: a response with no content-type header but an empty
body does not fail — `parse_body` returns `None` before the header check. -/
theorem parse_body_empty_counterexample :
    parse_body BodyText.empty [] = .ok ParsedBody.pnone := rfl

/-- C9 amended: for every response with a non-empty body and no content-type
header (neither spelling), body parsing fails with the content-type-missing
failure `LibcloudError('Missing content-type header')` — a failure rather
than a parsed value or a raw JSON error; an empty body instead returns
`None` successfully before the header check. -/
theorem parse_body_missing_content_type :
    ∀ b hs, b ≠ BodyText.empty → hlookup hs "content-type" = none →
      hlookup hs "Content-Type" = none →
      parse_body b hs = .error (.libcloudError "Missing content-type header") := by
  intro b hs hb h1 h2
  cases b with
  | empty => exact absurd rfl hb
  | jsonOf j => simp [parse_body, h1, h2]
  | unparsable => simp [parse_body, h1, h2]

theorem parse_body_missing_content_type_witness :
    parse_body BodyText.unparsable []
      = .error (.libcloudError "Missing content-type header") :=
  parse_body_missing_content_type BodyText.unparsable [] (by decide) rfl rfl

/-- C10: every successful 1.0 authentication synthesizes exactly the three
service names `cloudServers`, `cloudFilesCDN` and `cloudFiles`, each a
one-element list holding a record whose only key is `publicURL` (the
corresponding header value, or `None` when absent); the built index groups
each under the `None` region, so `get_endpoint` with that name and
`region=None` returns the single record; and a missing management, CDN or
storage header does not prevent success — only a falsy token header does. -/
theorem v10_synthesized_catalog :
    (∀ resp r, authenticate_1_0 resp = .ok r →
      r.urls = Json.obj
        [("cloudServers",
           .arr [.obj [("publicURL", hGetD resp.headers "x-server-management-url")]]),
         ("cloudFilesCDN",
           .arr [.obj [("publicURL", hGetD resp.headers "x-cdn-management-url")]]),
         ("cloudFiles",
           .arr [.obj [("publicURL", hGetD resp.headers "x-storage-url")]])]
      ∧ (catalogInit r.urls (some "1.0")).map
          (fun c => c.get_endpoint .null (.str "cloudServers") .null)
          = .ok (.ok [("publicURL", hGetD resp.headers "x-server-management-url")])
      ∧ (catalogInit r.urls (some "1.0")).map
          (fun c => c.get_endpoint .null (.str "cloudFilesCDN") .null)
          = .ok (.ok [("publicURL", hGetD resp.headers "x-cdn-management-url")])
      ∧ (catalogInit r.urls (some "1.0")).map
          (fun c => c.get_endpoint .null (.str "cloudFiles") .null)
          = .ok (.ok [("publicURL", hGetD resp.headers "x-storage-url")]))
    ∧ (∀ resp, resp.status = 204 →
        (hGetD resp.headers "x-auth-token").isTruthy = true →
        (authenticate_1_0 resp).isOk = true) := by
  constructor
  · intro resp r h
    unfold authenticate_1_0 at h
    split at h
    · exact absurd h (by simp)
    · split at h
      · exact absurd h (by simp)
      · split at h
        · cases h
          refine ⟨rfl, ?_, ?_, ?_⟩ <;> rfl
        · exact absurd h (by simp)
  · intro resp h204 htok
    simp [authenticate_1_0, h204, htok, Except.isOk, Except.toBool]

theorem v10_synthesized_catalog_witness :
    (authenticate_1_0 ⟨204, [("x-auth-token", "tok")], .empty⟩).isOk = true :=
  v10_synthesized_catalog.2 ⟨204, [("x-auth-token", "tok")], .empty⟩ rfl rfl

end OpenStack
